import Mathlib

namespace OpenAIBrain

/-! Shallow embedding of the OpenAI "brain" plugin sources, `src/src/brain.ts`
and the later variant `src/unnamed/part_000`: settings validation, history
windowing (`truncateStringList`), per-turn content composition
(`getMessageContent`), model selection, transcription and image-generation
request shaping, and the credential-keyed client cache (`getClient`).

Modelling conventions: JavaScript strings are `String`, JavaScript numbers are
`Int` (all values involved are integral), values that may be `undefined` are
`Option`, and external effects are explicit parameters: filesystem reads become
a `String → String` base64-reader, the network fetch of image bytes becomes a
`String → List Nat` function, and the provider response is passed in as data.
An operation that in the source issues a network request is represented by a
`request`/`success` constructor carrying exactly the parameter object the
source builds; the `invalid` constructor is the short-circuit return taken when
settings validation fails, before any provider call. -/

structure FileAttachment where
  path : String
  mimeType : String
  deriving DecidableEq

structure TextBrainPrompt where
  role : String
  message : String
  attachments : Option (List FileAttachment)
  deriving DecidableEq

/-- The `ISettings` interface. `apiKey` absent (`undefined`) is modelled as the
empty string, which the validator treats identically (both are rejected).
`maxCharactersHistorySize` is optional because the source defends it with
`?? 3000`; `imageGenerationModel` exists only in the later source variant. -/
structure ISettings where
  apiKey : String
  textModel : Option String
  audioTranscriberModel : Option String
  audioTranscriberDefaultLanguage : Option String
  imageGenerationSize : String
  imageGenerationCount : String
  maxCharactersHistorySize : Option Int
  imageDetail : String
  imageGenerationModel : Option String
  deriving DecidableEq

/-- Body of the loop `while (totalCharacters > maxCharacters && list.length > 1)`
in `truncateStringList`: drop (`shift`) the first turn and subtract its message
length from the running total, until the total fits or one turn remains. -/
def truncGo (maxCharacters : Int) : List TextBrainPrompt → Int → List TextBrainPrompt
  | [], _ => []
  | [m], _ => [m]
  | first :: next :: rest, totalCharacters =>
    if totalCharacters > maxCharacters then
      truncGo maxCharacters (next :: rest) (totalCharacters - (first.message.length : Int))
    else
      first :: next :: rest

/-- The function `truncateStringList(list, maxCharacters)`: lists of at most 2 turns are
returned unchanged; otherwise the initial total is the length of the
concatenation (`join`) of all messages and the drop loop runs. -/
def truncateStringList (list : List TextBrainPrompt) (maxCharacters : Int) :
    List TextBrainPrompt :=
  if list.length ≤ 2 then
    list
  else
    truncGo maxCharacters list ((String.join (list.map (fun m => m.message))).length : Int)

/-- Total character count of the messages of a turn list. -/
def sumMessageLengths (list : List TextBrainPrompt) : Nat :=
  (list.map (fun m => m.message.length)).sum

/-- Modelled from the spec: `BrainSettingsValidationResult` is provided by the
external `@hubai/brain-sdk` package, whose source is not part of this
repository. Per the spec (§3, ValidationResult: "{ success: bool,
message/errors }"), `success` is false exactly when a validation error was
recorded, and `getMessage` renders the recorded errors as a human-readable
explanation. -/
structure BrainSettingsValidationResult where
  errors : List String
  deriving DecidableEq

def BrainSettingsValidationResult.success (v : BrainSettingsValidationResult) : Bool :=
  v.errors.isEmpty

def BrainSettingsValidationResult.addFieldError
    (v : BrainSettingsValidationResult) (field message : String) :
    BrainSettingsValidationResult :=
  { errors := v.errors ++ [field ++ ": " ++ message] }

def BrainSettingsValidationResult.getMessage
    (v : BrainSettingsValidationResult) : String :=
  String.intercalate "\n" v.errors

/-- The function `validateSettings` of `src/src/brain.ts`: reject when the API key is absent
(modelled as the empty string, which also has length below 10) or shorter than
10 characters. -/
def validateSettings (settings : ISettings) : BrainSettingsValidationResult :=
  let validation : BrainSettingsValidationResult := { errors := [] }
  if settings.apiKey.length < 10 then
    validation.addFieldError "apiKey" "API key format is invalid"
  else
    validation

/-- Attachment payload: either a string (URL or base64) or the bytes of a
`node-fetch` buffer, modelled as a list of byte values. -/
inductive ResponseData where
  | str (s : String)
  | bytes (b : List Nat)
  deriving DecidableEq

/-- The `ResponseFile` record of the host SDK. -/
structure ResponseFile where
  data : ResponseData
  fileType : String
  mimeType : String
  deriving DecidableEq

/-- The host response envelope. The short-circuit returns of the source omit
the `attachments` key, which the host reads as an empty attachment list; that
is modelled as `[]`. -/
structure BrainPromptResponse where
  result : String
  attachments : List ResponseFile
  deriving DecidableEq

/-- One `ChatCompletionContentPart`. -/
inductive ContentPart where
  | text (text : String)
  | image (url : String) (detail : String)
  deriving DecidableEq

/-- Either `string` or `ChatCompletionContentPart[]`. -/
inductive MessageContent where
  | plain (s : String)
  | parts (ps : List ContentPart)
  deriving DecidableEq

/-- JavaScript `s.startsWith(p)`, computed on the character list (the core
`String.startsWith` is compiled by well-founded recursion over byte positions
and does not reduce in the kernel; this list form is its specification). -/
def strStartsWith (s p : String) : Bool :=
  s.data.take p.data.length == p.data

/-- JavaScript `String.prototype.trim` (as used by `message.trim()`): strip
leading and trailing whitespace. -/
def jsTrim (s : String) : String :=
  String.mk (((s.data.dropWhile Char.isWhitespace).reverse.dropWhile
    Char.isWhitespace).reverse)

/-- The image attachments of a turn:
`message.attachments?.filter(a => a.mimeType.startsWith('image/'))`, an
`undefined` attachment list giving no image attachments. -/
def imageAttachments (message : TextBrainPrompt) : List FileAttachment :=
  (message.attachments.getD []).filter (fun a => strStartsWith a.mimeType "image/")

/-- The function `convertImageAttachmentToBase64`, with the filesystem read
`fs.readFileSync(path).toString(\x27base64\x27)` supplied as `fileBase64`. -/
def convertImageAttachmentToBase64 (fileBase64 : String → String)
    (attachment : FileAttachment) : String :=
  "data:" ++ attachment.mimeType ++ ";base64," ++ fileBase64 attachment.path

/-- The function `getMessageContent` (local to `sendTextPrompt`): plain text when the turn
has no image attachment or carries the brain role; otherwise a text part
followed by one image part per attachment (the source maps over all
attachments, not only the image ones). The fidelity of each image part is the
configured `imageDetail` when the turn message text equals the last windowed
turn message text (`message.message === lastPrompt.message`), `low`
otherwise. -/
def getMessageContent (fileBase64 : String → String) (settings : ISettings)
    (lastMessage : String) (message : TextBrainPrompt) : MessageContent :=
  if (imageAttachments message).isEmpty || message.role == "brain" then
    .plain message.message
  else
    .parts (ContentPart.text message.message ::
      (message.attachments.getD []).map (fun m =>
        ContentPart.image (convertImageAttachmentToBase64 fileBase64 m)
          (if message.message == lastMessage then settings.imageDetail else "low")))

/-- The flag `messagesTruncated.filter(m => m.attachments?.filter(isImage).length).length`
used as a truthy flag. -/
def hasImageAttached (messages : List TextBrainPrompt) : Bool :=
  messages.any (fun m => !(imageAttachments m).isEmpty)

/-- The text-model label table of `src/src/brain.ts`. -/
def textModelsV1 (label : String) : Option String :=
  if label = "GPT 4" then some "gpt-4-1106-preview"
  else if label = "GPT 3.5" then some "gpt-3.5-turbo"
  else if label = "vision" then some "gpt-4-vision-preview"
  else none

/-- The text-model label table of `src/unnamed/part_000`. -/
def textModelsV2 (label : String) : Option String :=
  if label = "GPT 4o" then some "gpt-4o"
  else if label = "GPT 4o-mini" then some "gpt-4o-mini"
  else if label = "vision" then some "gpt-4o-mini"
  else none

structure ChatMessage where
  role : String
  content : MessageContent
  deriving DecidableEq

/-- The `ChatCompletionCreateParams` fields built by `sendTextPrompt`. An
unrecognized (or absent) text-model label leaves `model` `undefined`
(`none`). -/
structure ChatCompletionParams where
  model : Option String
  messages : List ChatMessage
  maxTokens : Int
  deriving DecidableEq

inductive SendTextResult where
  | invalid (response : BrainPromptResponse)
  | request (params : ChatCompletionParams)
  deriving DecidableEq

/-- The windowed history used by `sendTextPrompt`:
`truncateStringList(prompts, settings?.maxCharactersHistorySize ?? 3000)`. -/
def windowedPrompts (prompts : List TextBrainPrompt) (settings : ISettings) :
    List TextBrainPrompt :=
  truncateStringList prompts (settings.maxCharactersHistorySize.getD 3000)

/-- The message text of `messagesTruncated[messagesTruncated.length - 1]`. The
default is never consulted: `lastPrompt.message` is only read inside
`getMessageContent`, which runs once per element of the (then nonempty)
windowed list. -/
def lastWindowedMessage (messages : List TextBrainPrompt) : String :=
  ((messages.getLast?).map (fun m => m.message)).getD ""

/-- The function `sendTextPrompt`, parameterized over the filesystem reader and the
text-model table, the only difference between the two source variants
(`textModelsV1` for `src/src/brain.ts`, `textModelsV2` for
`src/unnamed/part_000`; their `validateSettings` differ only in the recorded
message text, not in the success condition, so the gate is shared). On
validation failure the source returns before any provider interaction, which
is the `invalid` constructor; otherwise `request` carries the parameter object
handed to `chat.completions.create`. -/
def sendTextPrompt (fileBase64 : String → String)
    (textModels : String → Option String)
    (prompts : List TextBrainPrompt) (settings : ISettings) : SendTextResult :=
  let validationResult := validateSettings settings
  if validationResult.success = false then
    .invalid { result := validationResult.getMessage, attachments := [] }
  else
    let messagesTruncated := windowedPrompts prompts settings
    .request {
      model :=
        if hasImageAttached messagesTruncated then textModels "vision"
        else settings.textModel.bind textModels,
      messages := messagesTruncated.map (fun m =>
        { role := if m.role == "brain" then "assistant" else m.role,
          content := getMessageContent fileBase64 settings
            (lastWindowedMessage messagesTruncated) m }),
      maxTokens := settings.maxCharactersHistorySize.getD 3000 }

structure LocalAudioPrompt where
  audioFilePath : String
  language : Option String
  deriving DecidableEq

/-- The `TranscriptionCreateParams` fields built by `transcribeAudio` (the file
stream is an external filesystem handle and carries no decidable content). -/
structure TranscriptionParams where
  language : String
  model : Option String
  deriving DecidableEq

inductive TranscribeResult where
  | invalid (response : BrainPromptResponse)
  | request (params : TranscriptionParams)
  deriving DecidableEq

/-- JavaScript `a || b` on an optional string: `undefined` and the empty string
are falsy. -/
def jsStringOr (a : Option String) (b : String) : String :=
  match a with
  | some s => if s = "" then b else s
  | none => b

/-- The function `transcribeAudio`: validate, then build the transcription request with
`language: prompt.language || settings.audioTranscriberDefaultLanguage ||
\x27en\x27`. -/
def transcribeAudio (prompt : LocalAudioPrompt) (settings : ISettings) :
    TranscribeResult :=
  let validationResult := validateSettings settings
  if validationResult.success = false then
    .invalid { result := validationResult.getMessage, attachments := [] }
  else
    .request {
      language :=
        jsStringOr prompt.language
          (jsStringOr settings.audioTranscriberDefaultLanguage "en"),
      model := settings.audioTranscriberModel }

structure ImageGenerationBrainPrompt where
  message : String
  expectedResponseType : String
  deriving DecidableEq

/-- One element of the provider `images.generate` response `data` array. -/
structure ProviderImageData where
  url : String
  b64Json : String
  deriving DecidableEq

/-- The `ImageGenerateParams` built by `generateImage`. `model` is sent only by
the `src/unnamed/part_000` variant (it stays `none` for `src/src/brain.ts`);
`n` is `none` when `Number.parseInt` yields `NaN`. -/
structure ImageGenerateParams where
  model : Option String
  prompt : String
  n : Option Int
  size : String
  user : String
  responseFormat : String
  deriving DecidableEq

inductive GenerateImageOutcome where
  | invalid (response : BrainPromptResponse)
  | success (params : ImageGenerateParams) (response : BrainPromptResponse)
  deriving DecidableEq

/-- Decimal value of a run of digit characters. -/
def digitsToNat (ds : List Char) : Nat :=
  ds.foldl (fun n c => 10 * n + (c.toNat - ('0').toNat)) 0

/-- The function `Number.parseInt` on a string: skip surrounding whitespace, an optional
sign, then the leading run of decimal digits; `NaN` (here `none`) when no
digit follows. -/
def parseIntJs (s : String) : Option Int :=
  let t := (jsTrim s).data
  let signDigits : Int × List Char :=
    match t with
    | '-' :: rest => (-1, rest)
    | '+' :: rest => (1, rest)
    | _ => (1, t)
  let ds := signDigits.2.takeWhile Char.isDigit
  if ds.isEmpty then none
  else some (signDigits.1 * (digitsToNat ds : Int))

/-- The response-adaptation loop shared by both `generateImage` variants:
choose the URL or base64 field of each provider item per the response format,
then fetch raw bytes when the caller asked for binary; every attachment is
tagged an image/png file. -/
def adaptImageResponse (fetchBuffer : String → List Nat)
    (expectedResponseType : String) (responseFormat : String)
    (data : List ProviderImageData) : List ResponseFile :=
  (data.map (fun d => if responseFormat == "url" then d.url else d.b64Json)).map
    (fun url =>
      { data :=
          if expectedResponseType == "binary" then ResponseData.bytes (fetchBuffer url)
          else ResponseData.str url,
        fileType := "image",
        mimeType := "image/png" })

/-- The function `generateImage` of `src/src/brain.ts`. `providerData` is the `data` array
of the provider response and `fetchBuffer` the network fetch of image bytes.
The result is `none` exactly when the source would throw: validation passed
but the prompt list is empty, so `prompt.expectedResponseType` reads a
property of `undefined`. -/
def generateImage (fetchBuffer : String → List Nat)
    (providerData : List ProviderImageData)
    (prompts : List ImageGenerationBrainPrompt) (settings : ISettings)
    (senderId : String) : Option GenerateImageOutcome :=
  let validationResult := validateSettings settings
  if validationResult.success = false then
    some (.invalid { result := validationResult.getMessage, attachments := [] })
  else
    match prompts.getLast? with
    | none => none
    | some prompt =>
      let responseFormat :=
        if prompt.expectedResponseType == "base64" then "b64_json" else "url"
      some (.success
        { model := none,
          prompt := jsTrim prompt.message,
          n := parseIntJs settings.imageGenerationCount,
          size := settings.imageGenerationSize,
          user := senderId,
          responseFormat := responseFormat }
        { result := "",
          attachments :=
            adaptImageResponse fetchBuffer prompt.expectedResponseType
              responseFormat providerData })

/-- The image-generation model table of `src/unnamed/part_000` (called
`textModels` in that function body). -/
def imageModels (label : String) : Option String :=
  if label = "Dall-E 2" then some "dall-e-2"
  else if label = "Dall-E 3" then some "dall-e-3"
  else none

/-- The function `generateImage` of `src/unnamed/part_000`: as `generateImage`, but the
model is looked up in `imageModels` and, when it resolves to `dall-e-3`, the
output count is forced to 1 and the size to `1024x1024`; otherwise the
configured count and size are used. -/
def generateImageV2 (fetchBuffer : String → List Nat)
    (providerData : List ProviderImageData)
    (prompts : List ImageGenerationBrainPrompt) (settings : ISettings)
    (senderId : String) : Option GenerateImageOutcome :=
  let validationResult := validateSettings settings
  if validationResult.success = false then
    some (.invalid { result := validationResult.getMessage, attachments := [] })
  else
    match prompts.getLast? with
    | none => none
    | some prompt =>
      let responseFormat :=
        if prompt.expectedResponseType == "base64" then "b64_json" else "url"
      let model := settings.imageGenerationModel.bind imageModels
      some (.success
        { model := model,
          prompt := jsTrim prompt.message,
          n :=
            if model == some "dall-e-3" then some 1
            else parseIntJs settings.imageGenerationCount,
          size :=
            if model == some "dall-e-3" then "1024x1024"
            else settings.imageGenerationSize,
          user := senderId,
          responseFormat := responseFormat }
        { result := "",
          attachments :=
            adaptImageResponse fetchBuffer prompt.expectedResponseType
              responseFormat providerData })

/-- A provider client; its only observable construction input is the key. -/
structure OpenAIClient where
  apiKey : String
  deriving DecidableEq

/-- The mutable fields `openAI?: OpenAI` and `currentKey?: string` of the
service instance. -/
structure BrainState where
  openAI : Option OpenAIClient
  currentKey : Option String
  deriving DecidableEq

structure GetClientResult where
  client : OpenAIClient
  state : BrainState
  constructedNew : Bool
  deriving DecidableEq

/-- The function `getClient`: construct a fresh client exactly when none exists or the key
changed (`!this.openAI || this.currentKey !== settings.apiKey`), recording the
new key; otherwise return the cached client unchanged. In the cached branch
`state.openAI` is `some`, so the `getD` default is never consulted. -/
def getClient (state : BrainState) (settings : ISettings) : GetClientResult :=
  if state.openAI.isNone || state.currentKey != some settings.apiKey then
    let client : OpenAIClient := { apiKey := settings.apiKey }
    { client := client,
      state := { openAI := some client, currentKey := some settings.apiKey },
      constructedNew := true }
  else
    { client := state.openAI.getD { apiKey := settings.apiKey },
      state := state,
      constructedNew := false }

/-- The scenario turn of C1: a 1000-character message (all copies of `c`). -/
def scenarioTurn (c : Char) : TextBrainPrompt :=
  { role := "user", message := String.mk (List.replicate 1000 c), attachments := none }

/-- The scenario history of C1: 5 turns of 1000 characters each. -/
def scenarioTurns : List TextBrainPrompt :=
  [scenarioTurn 'a', scenarioTurn 'b', scenarioTurn 'c', scenarioTurn 'd', scenarioTurn 'e']

/-- A concrete settings object with a valid (10-character) key, configured
default fidelity `high`, and the premium image model. -/
def cexSettings : ISettings :=
  { apiKey := "0123456789", textModel := some "GPT 4",
    audioTranscriberModel := none, audioTranscriberDefaultLanguage := none,
    imageGenerationSize := "256x256", imageGenerationCount := "2",
    maxCharactersHistorySize := some 3000, imageDetail := "high",
    imageGenerationModel := some "Dall-E 3" }

/-- Settings with a 5-character credential (the C5 scenario). -/
def badSettings : ISettings :=
  { cexSettings with apiKey := "short" }

def cexImage : FileAttachment := { path := "img.png", mimeType := "image/png" }

/-- An earlier (non-last) turn carrying an image, whose message text happens to
equal the last turn's text. -/
def cexEarlier : TextBrainPrompt :=
  { role := "user", message := "hi", attachments := some [cexImage] }

/-- The last turn of the two-turn history. -/
def cexLast : TextBrainPrompt :=
  { role := "user", message := "hi", attachments := none }

/-- A concrete filesystem reader: every file reads as the base64 text IMG. -/
def cexFileBase64 : String → String := fun _ => "IMG"

/-- The chat message built from `cexEarlier`: its image part receives detail
`high` although the turn is not the last one. -/
def cexChatMessage : ChatMessage :=
  { role := "user",
    content := .parts [ContentPart.text "hi",
      ContentPart.image "data:image/png;base64,IMG" "high"] }

/-- A concrete image-generation prompt requesting raw bytes. -/
def cexImagePrompt : ImageGenerationBrainPrompt :=
  { message := "make a cat", expectedResponseType := "binary" }

/-- The full request `sendTextPrompt` builds on the two-turn history. -/
def cexParams : ChatCompletionParams :=
  { model := some "gpt-4-vision-preview",
    messages := [cexChatMessage, { role := "user", content := .plain "hi" }],
    maxTokens := 3000 }

theorem foldl_append_length (l : List String) :
    ∀ acc : String, (l.foldl (fun r s => r ++ s) acc).length
      = acc.length + (l.map String.length).sum := by
  induction l with
  | nil => intro acc; simp
  | cons a t ih =>
    intro acc
    simp only [List.foldl_cons, ih (acc ++ a), String.length_append, List.map_cons,
      List.sum_cons]
    omega

theorem join_length_eq_sum_nat (list : List TextBrainPrompt) :
    (String.join (list.map (fun m => m.message))).length = sumMessageLengths list := by
  have h := foldl_append_length (list.map (fun m => m.message)) ""
  simp only [String.join, sumMessageLengths]
  rw [h, List.map_map]
  simp only [String.length_empty, Nat.zero_add]
  rfl

theorem join_length_eq_sum (list : List TextBrainPrompt) :
    ((String.join (list.map (fun m => m.message))).length : Int)
      = (sumMessageLengths list : Int) := by
  rw [join_length_eq_sum_nat]

theorem truncGo_suffix (maxCharacters : Int) :
    ∀ (list : List TextBrainPrompt) (total : Int),
      truncGo maxCharacters list total <:+ list := by
  intro list
  induction list with
  | nil => intro total; simp [truncGo]
  | cons first rest ih =>
    intro total
    match rest with
    | [] => simp [truncGo]
    | next :: rest2 =>
      simp only [truncGo]
      split
      · exact (ih _).trans (List.suffix_cons first (next :: rest2))
      · exact List.suffix_refl _

theorem truncGo_fits_or_singleton (maxCharacters : Int) :
    ∀ (list : List TextBrainPrompt) (total : Int),
      total = (sumMessageLengths list : Int) →
      (sumMessageLengths (truncGo maxCharacters list total) : Int) ≤ maxCharacters ∨
        (truncGo maxCharacters list total).length ≤ 1 := by
  intro list
  induction list with
  | nil => intro total _; right; simp [truncGo]
  | cons first rest ih =>
    intro total htotal
    match rest with
    | [] => right; simp [truncGo]
    | next :: rest2 =>
      simp only [truncGo]
      split
      · apply ih
        simp only [sumMessageLengths, List.map_cons, List.sum_cons] at htotal ⊢
        push_cast at htotal ⊢
        omega
      · left
        rename_i hle
        omega

theorem truncGo_ne_nil (maxCharacters : Int) :
    ∀ (list : List TextBrainPrompt) (total : Int), list ≠ [] →
      truncGo maxCharacters list total ≠ [] := by
  intro list
  induction list with
  | nil => intro total h; exact absurd rfl h
  | cons first rest ih =>
    intro total _
    match rest with
    | [] => simp [truncGo]
    | next :: rest2 =>
      simp only [truncGo]
      split
      · exact ih _ (by simp)
      · simp

theorem truncGo_of_le (maxCharacters : Int) (list : List TextBrainPrompt)
    (total : Int) (h : ¬ total > maxCharacters) :
    truncGo maxCharacters list total = list := by
  match list with
  | [] => simp [truncGo]
  | [m] => simp [truncGo]
  | first :: next :: rest => simp [truncGo, h]

theorem scenarioTurn_length (c : Char) : (scenarioTurn c).message.length = 1000 := by
  show (String.mk (List.replicate 1000 c)).length = 1000
  rw [String.length_mk, List.length_replicate]

/-- C1: for every turn list with more than 2 elements, if the total message
length fits the budget then `truncateStringList` returns the full list;
otherwise it returns a contiguous order-preserved suffix whose total fits the
budget or which consists of exactly one turn; and on the concrete scenario of
5 turns of 1000 characters each with budget 3000 it keeps exactly the last 3
turns. -/
theorem claim_C1 (list : List TextBrainPrompt) (budget : Int)
    (h : 2 < list.length) :
    ((sumMessageLengths list : Int) ≤ budget →
        truncateStringList list budget = list) ∧
    ((sumMessageLengths list : Int) > budget →
        truncateStringList list budget <:+ list ∧
          ((sumMessageLengths (truncateStringList list budget) : Int) ≤ budget ∨
            (truncateStringList list budget).length = 1)) ∧
    truncateStringList scenarioTurns 3000
      = [scenarioTurn 'c', scenarioTurn 'd', scenarioTurn 'e'] := by
  have hgt : ¬ list.length ≤ 2 := by omega
  refine ⟨?_, ?_, ?_⟩
  · intro hle
    simp only [truncateStringList, hgt, if_false]
    rw [join_length_eq_sum]
    exact truncGo_of_le budget list _ (by omega)
  · intro hover
    simp only [truncateStringList, hgt, if_false]
    rw [join_length_eq_sum]
    refine ⟨truncGo_suffix budget list _, ?_⟩
    rcases truncGo_fits_or_singleton budget list _ rfl with hfit | hone
    · exact Or.inl hfit
    · right
      have hne := truncGo_ne_nil budget list (sumMessageLengths list : Int)
        (by intro hnil; rw [hnil] at h; simp at h)
      have : 0 < (truncGo budget list (sumMessageLengths list : Int)).length :=
        List.length_pos.mpr hne
      omega
  · have hsumn : sumMessageLengths scenarioTurns = 5000 := by
      simp only [sumMessageLengths, scenarioTurns, List.map_cons, List.map_nil,
        List.sum_cons, List.sum_nil, scenarioTurn_length]
      omega
    have hsum : (sumMessageLengths scenarioTurns : Int) = 5000 := by
      rw [hsumn]; norm_num
    have hlen : ¬ scenarioTurns.length ≤ 2 := by
      simp only [scenarioTurns, List.length_cons, List.length_nil]; omega
    simp only [truncateStringList]
    rw [if_neg hlen, join_length_eq_sum, hsum]
    show truncGo 3000 scenarioTurns 5000 = _
    simp only [scenarioTurns, truncGo, scenarioTurn_length]
    norm_num [truncGo, scenarioTurn_length]

/-- C1 witness: the general parts of C1 instantiated on the concrete scenario. -/
theorem claim_C1_witness :
    2 < scenarioTurns.length ∧
      ((sumMessageLengths scenarioTurns : Int) > 3000 →
        truncateStringList scenarioTurns 3000 <:+ scenarioTurns ∧
          ((sumMessageLengths (truncateStringList scenarioTurns 3000) : Int) ≤ 3000 ∨
            (truncateStringList scenarioTurns 3000).length = 1)) :=
  ⟨by simp only [scenarioTurns, List.length_cons, List.length_nil]; omega,
    (claim_C1 scenarioTurns 3000
      (by simp only [scenarioTurns, List.length_cons, List.length_nil]; omega)).2.1⟩

/-- C6: a turn list with 2 or fewer elements is returned unchanged by
`truncateStringList`, for every budget, including budgets smaller than any
message length. -/
theorem claim_C6 (list : List TextBrainPrompt) (budget : Int)
    (h : list.length ≤ 2) : truncateStringList list budget = list := by
  simp [truncateStringList, h]

/-- C6 witness: a 2-element list with a negative budget is returned unchanged. -/
theorem claim_C6_witness :
    [scenarioTurn 'a', scenarioTurn 'b'].length ≤ 2 ∧
      truncateStringList [scenarioTurn 'a', scenarioTurn 'b'] (-5)
        = [scenarioTurn 'a', scenarioTurn 'b'] :=
  ⟨by simp, claim_C6 [scenarioTurn 'a', scenarioTurn 'b'] (-5) (by simp)⟩

theorem validateSettings_fail (settings : ISettings)
    (h : settings.apiKey.length < 10) :
    validateSettings settings
      = { errors := ["apiKey: API key format is invalid"] } := by
  simp [validateSettings, BrainSettingsValidationResult.addFieldError, h]

theorem validateSettings_ok (settings : ISettings)
    (h : ¬ settings.apiKey.length < 10) :
    validateSettings settings = { errors := [] } := by
  simp [validateSettings, h]

theorem validateSettings_success_ok (settings : ISettings)
    (h : ¬ settings.apiKey.length < 10) :
    ((validateSettings settings).success = false) = False := by
  rw [validateSettings_ok settings h]
  simp [BrainSettingsValidationResult.success]

/-- Short-circuit of `sendTextPrompt` on invalid settings. -/
theorem sendTextPrompt_invalid (fileBase64 : String → String)
    (table : String → Option String) (prompts : List TextBrainPrompt)
    (settings : ISettings) (h : settings.apiKey.length < 10) :
    sendTextPrompt fileBase64 table prompts settings
      = .invalid { result := "apiKey: API key format is invalid",
                   attachments := [] } := by
  simp only [sendTextPrompt]
  rw [validateSettings_fail settings h]
  rfl

/-- Short-circuit of `transcribeAudio` on invalid settings. -/
theorem transcribeAudio_invalid (prompt : LocalAudioPrompt)
    (settings : ISettings) (h : settings.apiKey.length < 10) :
    transcribeAudio prompt settings
      = .invalid { result := "apiKey: API key format is invalid",
                   attachments := [] } := by
  simp only [transcribeAudio]
  rw [validateSettings_fail settings h]
  rfl

/-- Short-circuit of `generateImage` on invalid settings. -/
theorem generateImage_invalid (fetchBuffer : String → List Nat)
    (providerData : List ProviderImageData)
    (prompts : List ImageGenerationBrainPrompt) (settings : ISettings)
    (senderId : String) (h : settings.apiKey.length < 10) :
    generateImage fetchBuffer providerData prompts settings senderId
      = some (.invalid { result := "apiKey: API key format is invalid",
                         attachments := [] }) := by
  simp only [generateImage]
  rw [validateSettings_fail settings h]
  rfl

/-- C5: when the credential is absent or shorter than 10 characters,
`validateSettings` fails, and each of the three operations short-circuits:
it builds no provider request (the `invalid` outcome) and returns an envelope
whose `result` is a non-empty explanation and whose attachment list is
empty. -/
theorem claim_C5 (settings : ISettings) (fileBase64 : String → String)
    (table : String → Option String) (prompts : List TextBrainPrompt)
    (audioPrompt : LocalAudioPrompt) (fetchBuffer : String → List Nat)
    (providerData : List ProviderImageData)
    (imagePrompts : List ImageGenerationBrainPrompt) (senderId : String)
    (h : settings.apiKey.length < 10) :
    (validateSettings settings).success = false ∧
    (∃ r, sendTextPrompt fileBase64 table prompts settings = .invalid r ∧
      r.result ≠ "" ∧ r.attachments = []) ∧
    (∃ r, transcribeAudio audioPrompt settings = .invalid r ∧
      r.result ≠ "" ∧ r.attachments = []) ∧
    (∃ r, generateImage fetchBuffer providerData imagePrompts settings senderId
        = some (.invalid r) ∧ r.result ≠ "" ∧ r.attachments = []) := by
  have hs : (validateSettings settings).success = false := by
    rw [validateSettings_fail settings h]; rfl
  exact ⟨hs,
    ⟨_, sendTextPrompt_invalid fileBase64 table prompts settings h,
      by decide, rfl⟩,
    ⟨_, transcribeAudio_invalid audioPrompt settings h, by decide, rfl⟩,
    ⟨_, generateImage_invalid fetchBuffer providerData imagePrompts settings
      senderId h, by decide, rfl⟩⟩

/-- C5 witness: the scenario with the 5-character credential `short`. -/
theorem claim_C5_witness :
    badSettings.apiKey.length < 10 ∧
      ((validateSettings badSettings).success = false ∧
      (∃ r, sendTextPrompt cexFileBase64 textModelsV1 [cexLast] badSettings
          = .invalid r ∧ r.result ≠ "" ∧ r.attachments = []) ∧
      (∃ r, transcribeAudio { audioFilePath := "a.mp3", language := none }
          badSettings = .invalid r ∧ r.result ≠ "" ∧ r.attachments = []) ∧
      (∃ r, generateImage (fun _ => []) [] [] badSettings "sender"
          = some (.invalid r) ∧ r.result ≠ "" ∧ r.attachments = [])) :=
  ⟨by decide,
    claim_C5 badSettings cexFileBase64 textModelsV1 [cexLast]
      { audioFilePath := "a.mp3", language := none } (fun _ => []) [] [] "sender"
      (by decide)⟩

/-- C10: for every transcription call that passes validation, the language
sent to the provider is the prompt language when it is a non-empty string,
else the configured default language when that is a non-empty string, else
the literal en. -/
theorem claim_C10 (prompt : LocalAudioPrompt) (settings : ISettings)
    (h : ¬ settings.apiKey.length < 10) :
    ∃ params, transcribeAudio prompt settings = .request params ∧
      params.model = settings.audioTranscriberModel ∧
      (∀ l, prompt.language = some l → l ≠ "" → params.language = l) ∧
      ((prompt.language = none ∨ prompt.language = some "") →
        ∀ d, settings.audioTranscriberDefaultLanguage = some d → d ≠ "" →
          params.language = d) ∧
      ((prompt.language = none ∨ prompt.language = some "") →
        (settings.audioTranscriberDefaultLanguage = none ∨
          settings.audioTranscriberDefaultLanguage = some "") →
        params.language = "en") := by
  refine ⟨{ language := jsStringOr prompt.language
                          (jsStringOr settings.audioTranscriberDefaultLanguage "en"),
            model := settings.audioTranscriberModel }, ?_, rfl, ?_, ?_, ?_⟩
  · simp only [transcribeAudio]
    rw [validateSettings_ok settings h]
    rfl
  · intro l hl hne
    simp [jsStringOr, hl, hne]
  · rintro (hl | hl) d hd hne <;> simp [jsStringOr, hl, hd, hne]
  · rintro (hl | hl) (hd | hd) <;> simp [jsStringOr, hl, hd]

/-- C10 witness: empty prompt language and absent default give language en. -/
theorem claim_C10_witness :
    ¬ cexSettings.apiKey.length < 10 ∧
      ∃ params, transcribeAudio { audioFilePath := "b.mp3", language := some "" }
          cexSettings = .request params ∧ params.language = "en" := by
  refine ⟨by decide, ?_⟩
  obtain ⟨params, heq, -, -, -, hen⟩ :=
    claim_C10 { audioFilePath := "b.mp3", language := some "" } cexSettings
      (by decide)
  exact ⟨params, heq, hen (Or.inr rfl) (Or.inl rfl)⟩

/-- C9: `getClient` constructs a new client exactly when no client is cached
or the supplied credential differs by value from the cached one; otherwise it
returns the cached client and leaves the state untouched; and after every
call the cached credential equals the supplied one. -/
theorem claim_C9 (state : BrainState) (settings : ISettings) :
    ((getClient state settings).constructedNew = true ↔
      state.openAI = none ∨ state.currentKey ≠ some settings.apiKey) ∧
    (getClient state settings).state.currentKey = some settings.apiKey ∧
    ((getClient state settings).constructedNew = false →
      (getClient state settings).state = state ∧
      state.openAI = some (getClient state settings).client) := by
  by_cases h : (state.openAI.isNone || state.currentKey != some settings.apiKey)
    = true
  · have hprop : state.openAI = none ∨ state.currentKey ≠ some settings.apiKey := by
      rcases Bool.or_eq_true_iff.mp h with h1 | h1
      · exact Or.inl (Option.isNone_iff_eq_none.mp h1)
      · exact Or.inr (bne_iff_ne.mp h1)
    simp [getClient, h, hprop]
  · have hfalse : (state.openAI.isNone || state.currentKey != some settings.apiKey)
        = false := by
      rw [← Bool.not_eq_true]
      exact h
    have h' := hfalse
    simp only [Bool.or_eq_false_iff, Option.isNone_eq_false_iff,
      bne_eq_false_iff_eq] at h'
    obtain ⟨hnn, hkey⟩ := h'
    obtain ⟨c, hc⟩ := Option.isSome_iff_exists.mp hnn
    have hprop : ¬ (state.openAI = none ∨ state.currentKey ≠ some settings.apiKey) := by
      push_neg
      exact ⟨by simp [hc], hkey⟩
    simp [getClient, hfalse, hprop, hc, hkey]

/-- C9 witness: from the empty cache, a call with the concrete settings
constructs a client and records its credential. -/
theorem claim_C9_witness :
    (getClient { openAI := none, currentKey := none } cexSettings).state.currentKey
      = some cexSettings.apiKey :=
  (claim_C9 { openAI := none, currentKey := none } cexSettings).2.1

/-- The request built by `sendTextPrompt` on valid settings. -/
theorem sendTextPrompt_request (fileBase64 : String → String)
    (table : String → Option String) (prompts : List TextBrainPrompt)
    (settings : ISettings) (h : ¬ settings.apiKey.length < 10) :
    sendTextPrompt fileBase64 table prompts settings = .request
      { model :=
          if hasImageAttached (windowedPrompts prompts settings) then table "vision"
          else settings.textModel.bind table,
        messages := (windowedPrompts prompts settings).map (fun m =>
          { role := if m.role == "brain" then "assistant" else m.role,
            content := getMessageContent fileBase64 settings
              (lastWindowedMessage (windowedPrompts prompts settings)) m }),
        maxTokens := settings.maxCharactersHistorySize.getD 3000 } := by
  simp only [sendTextPrompt]
  rw [validateSettings_ok settings h]
  rfl

/-- C3: whenever `sendTextPrompt` issues a request, its model is the vision
entry of the label table when some windowed turn carries an image attachment,
and otherwise the configured label mapped through the table; the vision entry
of each source variant is its vision-capable id, and labels outside the table
resolve to `none` (undefined). -/
theorem claim_C3 (fileBase64 : String → String) (table : String → Option String)
    (prompts : List TextBrainPrompt) (settings : ISettings)
    (p : ChatCompletionParams)
    (h : sendTextPrompt fileBase64 table prompts settings = .request p) :
    p.model = (if hasImageAttached (windowedPrompts prompts settings)
        then table "vision" else settings.textModel.bind table) ∧
    textModelsV1 "vision" = some "gpt-4-vision-preview" ∧
    textModelsV2 "vision" = some "gpt-4o-mini" ∧
    (∀ label, label ≠ "GPT 4" → label ≠ "GPT 3.5" → label ≠ "vision" →
      textModelsV1 label = none) ∧
    (∀ label, label ≠ "GPT 4o" → label ≠ "GPT 4o-mini" → label ≠ "vision" →
      textModelsV2 label = none) := by
  refine ⟨?_, rfl, rfl, ?_, ?_⟩
  · by_cases hv : settings.apiKey.length < 10
    · rw [sendTextPrompt_invalid fileBase64 table prompts settings hv] at h
      cases h
    · rw [sendTextPrompt_request fileBase64 table prompts settings hv] at h
      injection h with h2
      rw [← h2]
  · intro label h1 h2 h3
    simp [textModelsV1, h1, h2, h3]
  · intro label h1 h2 h3
    simp [textModelsV2, h1, h2, h3]

/-- C3 witness: with an image attached, the concrete request resolves to the
vision model despite the configured GPT 4 label. -/
theorem claim_C3_witness :
    cexParams.model
      = (if hasImageAttached (windowedPrompts [cexEarlier, cexLast] cexSettings)
          then textModelsV1 "vision"
          else cexSettings.textModel.bind textModelsV1) :=
  (claim_C3 cexFileBase64 textModelsV1 [cexEarlier, cexLast] cexSettings
    cexParams (by decide)).1

/-- C2 counterexample: on the two-turn history `[cexEarlier, cexLast]` (both
messages read hi, only the earlier turn has an image) with configured
fidelity high, the earlier turn is not the last turn of the windowed list and
yet its image part is sent with detail high, not low, because the source
compares message texts (`message.message === lastPrompt.message`), not turn
positions. -/
theorem claim_C2_counterexample :
    sendTextPrompt cexFileBase64 textModelsV1 [cexEarlier, cexLast] cexSettings
      = .request cexParams ∧
    cexParams.messages.head? = some cexChatMessage ∧
    cexChatMessage.content
      = .parts [ContentPart.text "hi",
          ContentPart.image "data:image/png;base64,IMG" "high"] ∧
    cexSettings.imageDetail = "high" ∧
    ("high" : String) ≠ "low" ∧
    windowedPrompts [cexEarlier, cexLast] cexSettings = [cexEarlier, cexLast] ∧
    cexEarlier ≠ cexLast :=
  ⟨by decide, by decide, by decide, by decide, by decide, by decide, by decide⟩

/-- C2 (amended): in every request `sendTextPrompt` issues, each image part of
a windowed turn carries the configured default fidelity when the turn message
text equals the message text of the last windowed turn, and low fidelity
otherwise. (In particular, when all windowed message texts are distinct,
exactly the last turn receives the configured fidelity.) -/
theorem claim_C2 (fileBase64 : String → String) (table : String → Option String)
    (prompts : List TextBrainPrompt) (settings : ISettings)
    (p : ChatCompletionParams)
    (h : sendTextPrompt fileBase64 table prompts settings = .request p)
    (c : ChatMessage) (hc : c ∈ p.messages) (ps : List ContentPart)
    (hps : c.content = .parts ps) (u d : String)
    (hm : ContentPart.image u d ∈ ps) :
    ∃ m ∈ windowedPrompts prompts settings,
      c.content = getMessageContent fileBase64 settings
          (lastWindowedMessage (windowedPrompts prompts settings)) m ∧
      d = (if m.message = lastWindowedMessage (windowedPrompts prompts settings)
          then settings.imageDetail else "low") := by
  by_cases hv : settings.apiKey.length < 10
  · rw [sendTextPrompt_invalid fileBase64 table prompts settings hv] at h
    cases h
  · rw [sendTextPrompt_request fileBase64 table prompts settings hv] at h
    injection h with h2
    rw [← h2] at hc
    obtain ⟨m, hmem, hcm⟩ := List.mem_map.mp hc
    refine ⟨m, hmem, by rw [← hcm], ?_⟩
    rw [← hcm] at hps
    simp only [getMessageContent] at hps
    split at hps
    · exact absurd hps (by simp)
    · injection hps with hps2
      rw [← hps2] at hm
      rcases List.mem_cons.mp hm with heq | hmem2
      · exact absurd heq (by simp)
      · obtain ⟨a, hamem, haeq⟩ := List.mem_map.mp hmem2
        injection haeq with h3 h4
        rw [← h4]
        by_cases hmsg : m.message
            = lastWindowedMessage (windowedPrompts prompts settings)
        · simp [hmsg]
        · simp [hmsg]

/-- C2 witness: the amended statement instantiated on the concrete two-turn
history; the earlier turn message equals the last message, so detail high. -/
theorem claim_C2_witness :
    ∃ m ∈ windowedPrompts [cexEarlier, cexLast] cexSettings,
      cexChatMessage.content = getMessageContent cexFileBase64 cexSettings
          (lastWindowedMessage (windowedPrompts [cexEarlier, cexLast] cexSettings)) m ∧
      "high" = (if m.message
            = lastWindowedMessage (windowedPrompts [cexEarlier, cexLast] cexSettings)
          then cexSettings.imageDetail else "low") :=
  claim_C2 cexFileBase64 textModelsV1 [cexEarlier, cexLast] cexSettings
    cexParams (by decide) cexChatMessage (by decide)
    [ContentPart.text "hi", ContentPart.image "data:image/png;base64,IMG" "high"]
    (by decide) "data:image/png;base64,IMG" "high" (by decide)

/-- C7: `getMessageContent` returns the plain message text (no parts) exactly
when the turn has no image attachment or carries the brain role; otherwise a
parts sequence whose head is a text part with the message and whose tail has
one image part per attachment. -/
theorem claim_C7 (fileBase64 : String → String) (settings : ISettings)
    (lastMessage : String) (message : TextBrainPrompt) :
    (((imageAttachments message).isEmpty || message.role == "brain") = true →
      getMessageContent fileBase64 settings lastMessage message
        = .plain message.message) ∧
    (((imageAttachments message).isEmpty || message.role == "brain") = false →
      ∃ ps, getMessageContent fileBase64 settings lastMessage message
          = .parts (ContentPart.text message.message :: ps) ∧
        ps.length = (message.attachments.getD []).length ∧
        ∀ part ∈ ps, ∃ u dt, part = ContentPart.image u dt) := by
  constructor
  · intro hcond
    simp [getMessageContent, hcond]
  · intro hcond
    refine ⟨(message.attachments.getD []).map (fun m =>
        ContentPart.image (convertImageAttachmentToBase64 fileBase64 m)
          (if message.message == lastMessage then settings.imageDetail
           else "low")), ?_, ?_, ?_⟩
    · simp [getMessageContent, hcond]
    · simp
    · intro part hpart
      obtain ⟨a, -, haeq⟩ := List.mem_map.mp hpart
      exact ⟨_, _, haeq.symm⟩

/-- C7 witness: both halves instantiated, on the image-free last turn and on
the image-carrying earlier turn. -/
theorem claim_C7_witness :
    (getMessageContent cexFileBase64 cexSettings "hi" cexLast
        = .plain cexLast.message) ∧
    (∃ ps, getMessageContent cexFileBase64 cexSettings "hi" cexEarlier
        = .parts (ContentPart.text cexEarlier.message :: ps) ∧
      ps.length = (cexEarlier.attachments.getD []).length ∧
      ∀ part ∈ ps, ∃ u dt, part = ContentPart.image u dt) :=
  ⟨(claim_C7 cexFileBase64 cexSettings "hi" cexLast).1 (by decide),
    (claim_C7 cexFileBase64 cexSettings "hi" cexEarlier).2 (by decide)⟩

/-- The outcome of `generateImage` on valid settings and a nonempty prompt
list. -/
theorem generateImage_success (fetchBuffer : String → List Nat)
    (providerData : List ProviderImageData)
    (prompts : List ImageGenerationBrainPrompt) (settings : ISettings)
    (senderId : String) (prompt : ImageGenerationBrainPrompt)
    (hv : ¬ settings.apiKey.length < 10)
    (hp : prompts.getLast? = some prompt) :
    generateImage fetchBuffer providerData prompts settings senderId
      = some (.success
          { model := none,
            prompt := jsTrim prompt.message,
            n := parseIntJs settings.imageGenerationCount,
            size := settings.imageGenerationSize,
            user := senderId,
            responseFormat :=
              if prompt.expectedResponseType == "base64" then "b64_json"
              else "url" }
          { result := "",
            attachments := adaptImageResponse fetchBuffer
              prompt.expectedResponseType
              (if prompt.expectedResponseType == "base64" then "b64_json"
               else "url")
              providerData }) := by
  simp only [generateImage]
  rw [validateSettings_ok settings hv, hp]
  rfl

/-- C4: on valid settings, the image-generation envelope has an empty result
text; its attachment list has one image/png-tagged entry per provider item in
the provider order; and per requested response type its data is the provider
URL unchanged, the provider base64 string unchanged, or the bytes fetched from
the provider URL. -/
theorem claim_C4 (fetchBuffer : String → List Nat)
    (providerData : List ProviderImageData)
    (prompts : List ImageGenerationBrainPrompt) (settings : ISettings)
    (senderId : String) (prompt : ImageGenerationBrainPrompt)
    (hv : ¬ settings.apiKey.length < 10)
    (hp : prompts.getLast? = some prompt) :
    ∃ params response,
      generateImage fetchBuffer providerData prompts settings senderId
        = some (.success params response) ∧
      response.result = "" ∧
      response.attachments.length = providerData.length ∧
      (∀ f ∈ response.attachments, f.fileType = "image" ∧ f.mimeType = "image/png") ∧
      (prompt.expectedResponseType = "url" →
        response.attachments = providerData.map (fun dd =>
          { data := ResponseData.str dd.url, fileType := "image",
            mimeType := "image/png" })) ∧
      (prompt.expectedResponseType = "base64" →
        response.attachments = providerData.map (fun dd =>
          { data := ResponseData.str dd.b64Json, fileType := "image",
            mimeType := "image/png" })) ∧
      (prompt.expectedResponseType = "binary" →
        response.attachments = providerData.map (fun dd =>
          { data := ResponseData.bytes (fetchBuffer dd.url), fileType := "image",
            mimeType := "image/png" })) := by
  refine ⟨_, _,
    generateImage_success fetchBuffer providerData prompts settings senderId
      prompt hv hp, rfl, ?_, ?_, ?_, ?_, ?_⟩
  · simp [adaptImageResponse]
  · intro f hf
    obtain ⟨url, -, hfeq⟩ := List.mem_map.mp hf
    rw [← hfeq]
    exact ⟨rfl, rfl⟩
  · intro hurl
    simp [adaptImageResponse, hurl, List.map_map, Function.comp]
  · intro hb64
    simp [adaptImageResponse, hb64, List.map_map, Function.comp]
  · intro hbin
    simp [adaptImageResponse, hbin, List.map_map, Function.comp]

/-- C4 witness: a binary-response prompt over one provider item yields one
image/png attachment with the fetched bytes. -/
theorem claim_C4_witness :
    ∃ params response,
      generateImage (fun _ => [7, 8]) [{ url := "URL1", b64Json := "B1" }]
          [cexImagePrompt] cexSettings "sender"
        = some (.success params response) ∧
      response.result = "" ∧
      response.attachments.length
        = [({ url := "URL1", b64Json := "B1" } : ProviderImageData)].length ∧
      (∀ f ∈ response.attachments, f.fileType = "image" ∧ f.mimeType = "image/png") ∧
      (cexImagePrompt.expectedResponseType = "url" →
        response.attachments
          = [({ url := "URL1", b64Json := "B1" } : ProviderImageData)].map (fun dd =>
            { data := ResponseData.str dd.url, fileType := "image",
              mimeType := "image/png" })) ∧
      (cexImagePrompt.expectedResponseType = "base64" →
        response.attachments
          = [({ url := "URL1", b64Json := "B1" } : ProviderImageData)].map (fun dd =>
            { data := ResponseData.str dd.b64Json, fileType := "image",
              mimeType := "image/png" })) ∧
      (cexImagePrompt.expectedResponseType = "binary" →
        response.attachments
          = [({ url := "URL1", b64Json := "B1" } : ProviderImageData)].map (fun dd =>
            { data := ResponseData.bytes ((fun _ => [7, 8]) dd.url),
              fileType := "image", mimeType := "image/png" })) :=
  claim_C4 (fun _ => [7, 8]) [{ url := "URL1", b64Json := "B1" }]
    [cexImagePrompt] cexSettings "sender" cexImagePrompt (by decide) (by rfl)

/-- C8: on valid settings, the request of the later source variant carries the
model resolved from the image-model table; when that is the premium dall-e-3
the output count is forced to 1 and the size to 1024x1024, and otherwise the
configured count (parsed) and size are used. -/
theorem claim_C8 (fetchBuffer : String → List Nat)
    (providerData : List ProviderImageData)
    (prompts : List ImageGenerationBrainPrompt) (settings : ISettings)
    (senderId : String) (prompt : ImageGenerationBrainPrompt)
    (hv : ¬ settings.apiKey.length < 10)
    (hp : prompts.getLast? = some prompt) :
    ∃ params response,
      generateImageV2 fetchBuffer providerData prompts settings senderId
        = some (.success params response) ∧
      params.model = settings.imageGenerationModel.bind imageModels ∧
      imageModels "Dall-E 3" = some "dall-e-3" ∧
      imageModels "Dall-E 2" = some "dall-e-2" ∧
      (params.model = some "dall-e-3" →
        params.n = some 1 ∧ params.size = "1024x1024") ∧
      (params.model ≠ some "dall-e-3" →
        params.n = parseIntJs settings.imageGenerationCount ∧
        params.size = settings.imageGenerationSize) := by
  refine ⟨{ model := settings.imageGenerationModel.bind imageModels,
            prompt := jsTrim prompt.message,
            n := if settings.imageGenerationModel.bind imageModels
                    == some "dall-e-3" then some 1
                 else parseIntJs settings.imageGenerationCount,
            size := if settings.imageGenerationModel.bind imageModels
                    == some "dall-e-3" then "1024x1024"
                 else settings.imageGenerationSize,
            user := senderId,
            responseFormat := if prompt.expectedResponseType == "base64"
                 then "b64_json" else "url" },
    { result := "",
      attachments := adaptImageResponse fetchBuffer prompt.expectedResponseType
        (if prompt.expectedResponseType == "base64" then "b64_json" else "url")
        providerData }, ?_, rfl, rfl, rfl, ?_, ?_⟩
  · simp only [generateImageV2]
    rw [validateSettings_ok settings hv, hp]
    rfl
  · intro hm
    have hb : (settings.imageGenerationModel.bind imageModels
        == some "dall-e-3") = true := beq_iff_eq.mpr hm
    exact ⟨by simp [hb], by simp [hb]⟩
  · intro hm
    have hb : (settings.imageGenerationModel.bind imageModels
        == some "dall-e-3") = false := beq_eq_false_iff_ne.mpr hm
    exact ⟨by simp [hb], by simp [hb]⟩

/-- C8 witness: with the Dall-E 3 label configured, count 2 and size 256x256
are overridden to 1 and 1024x1024. -/
theorem claim_C8_witness :
    ∃ params response,
      generateImageV2 (fun _ => []) [] [cexImagePrompt] cexSettings "sender"
        = some (.success params response) ∧
      params.model = cexSettings.imageGenerationModel.bind imageModels ∧
      imageModels "Dall-E 3" = some "dall-e-3" ∧
      imageModels "Dall-E 2" = some "dall-e-2" ∧
      (params.model = some "dall-e-3" →
        params.n = some 1 ∧ params.size = "1024x1024") ∧
      (params.model ≠ some "dall-e-3" →
        params.n = parseIntJs cexSettings.imageGenerationCount ∧
        params.size = cexSettings.imageGenerationSize) :=
  claim_C8 (fun _ => []) [] [cexImagePrompt] cexSettings "sender" cexImagePrompt
    (by decide) (by rfl)

end OpenAIBrain
